import Mathlib

/-!
Verification of the Waguri AI bilingual inference service against its design
specification.  The embedding below follows `src/main.py`: the pydantic
request and response models, the X-LoRA adapter activation step of
`load_model` (lines 100-111), the prompt assembly and truncating
tokenization of `generate_response` (lines 116-177), the `chat` endpoint
wrapper (lines 190-198) and the `health` endpoint (lines 200-207).

External library behaviour is modelled explicitly where the claims depend
on it:
- the Hugging Face tokenizer is abstracted to a character-level encoding
  (`charEncode`); the one fact of it the source relies on is that a call
  with `truncation=True, max_length=MAX_SEQ_LEN` keeps at most the FIRST
  `MAX_SEQ_LEN` tokens (the default truncation side is the right, i.e. the
  newest end of the sequence is cut);
- `apply_chat_template` with `add_generation_prompt=True` is modelled as
  the ChatML rendering used by the Qwen2.5 family: each message becomes a
  role header, its content and an end marker, and an assistant header is
  appended at the end;
- `model.generate` of a decoder-only causal LM returns the input ids
  followed by the newly sampled tokens; the sampled continuation itself is
  kept abstract (a function parameter), since sampling is external and
  non-deterministic;
- `set_adapter` lives in the external peft library and is modelled from
  the spec contract for `setActiveAdapters`.
-/

set_option maxRecDepth 2000

namespace Waguri

/-- A conversation turn, after the pydantic model `ChatMessage` of
`main.py` (lines 36-38). -/
structure ChatMessage where
  role : String
  content : String
  deriving DecidableEq, Repr

/-- A chat request, after the pydantic model `ChatRequest` of `main.py`
(lines 40-42).  The source declares exactly two fields: `message` and
`history` (with default `[]`); there is no further field. -/
structure ChatRequest where
  message : String
  history : List ChatMessage
  deriving DecidableEq, Repr

/-- A chat response, after the pydantic model `ChatResponse` of `main.py`
(lines 44-45). -/
structure ChatResponse where
  response : String
  deriving DecidableEq, Repr

/-- Generation parameter `MAX_SEQ_LEN` of `main.py` (line 52), used as the
token budget `max_length` of the tokenizer call. -/
def MAX_SEQ_LEN : Nat := 512

/-- The constant `DEVICE` of `main.py` (line 61); it is never reassigned. -/
def DEVICE : String := "cpu"

/-- The state of the peft model that the adapter router manipulates: the
registry of adapter identifiers (`peft_config.keys()`) and the currently
active selection.  This models a loaded model that exposes the nested
adapter registry probed by `load_model` (the `hasattr` chain of lines
103-105). -/
structure LoraModel where
  adapterNames : List String
  activeAdapters : List String
  deriving DecidableEq, Repr

/-- Error signalled by the adapter router when asked to activate an
identifier that is absent from the adapter registry. -/
inductive AdapterError where
  | adapterNotFound
  deriving DecidableEq, Repr

/-- Python `str.isdigit`: true exactly when the string is non-empty and
every character is a digit (restricted here to the ASCII digits, which is
what the numeric adapter names of the source use). -/
def pyIsdigit (s : String) : Bool :=
  !s.isEmpty && s.data.all Char.isDigit

/-- Modelled from the spec: `setActiveAdapters` (the peft library call
`set_adapter`, whose implementation is outside this repository).  Per the
spec contract it fails with `AdapterNotFoundError` if any requested id is
absent from the adapter registry, and on success the active selection
becomes exactly the requested set.  The error case returns no new state,
so a failed call leaves the selection unchanged. -/
def setAdapter (m : LoraModel) (ids : List String) : Except AdapterError LoraModel :=
  if ids.all (fun i => m.adapterNames.contains i) then
    Except.ok { m with activeAdapters := ids }
  else
    Except.error AdapterError.adapterNotFound

/-- The state observable after a `setAdapter` call whether or not it
failed: on success the new state, on failure the old one (the raise
happens before any mutation). -/
def applySetAdapter (m : LoraModel) (ids : List String) : LoraModel :=
  match setAdapter m ids with
  | Except.ok m2 => m2
  | Except.error _ => m

/-- The X-LoRA activation step of `load_model` (`main.py` lines 100-111):
collect the adapter names that satisfy `isdigit`; if the list is non-empty,
call `set_adapter` on it.  The whole block is wrapped in `try/except`
with a log-and-continue policy, so any failure of the call leaves the
model as it was (`applySetAdapter`). -/
def xloraActivation (m : LoraModel) : LoraModel :=
  let numeric := m.adapterNames.filter pyIsdigit
  if numeric.isEmpty then m
  else applySetAdapter m numeric

/-- The hard-coded system prompt of `generate_response` (`main.py`
line 126). -/
def SYSTEM_PROMPT : String :=
  "Anda adalah Waguri AI, asisten AI yang ramah dan membantu. Anda fasih berbahasa Indonesia dan Inggris. Jawab pertanyaan dengan jelas, singkat, dan informatif."

/-- The system message appended first by `generate_response` (`main.py`
lines 124-127).  Its content is the same constant for every request. -/
def systemMessage : ChatMessage :=
  { role := "system", content := SYSTEM_PROMPT }

/-- Python slice `history[-6:]`: the last six elements (the whole list when
it is shorter). -/
def lastSix (history : List ChatMessage) : List ChatMessage :=
  history.drop (history.length - 6)

/-- The message list built by `generate_response` (`main.py` lines
121-140): the fixed system message, then the last six history turns, then
the new user message. -/
def buildMessages (message : String) (history : List ChatMessage) : List ChatMessage :=
  systemMessage :: (lastSix history ++ [{ role := "user", content := message }])

/-- ChatML rendering of one message, as the Qwen2.5 chat template emits
it: role header, content, end marker. -/
def renderMessage (m : ChatMessage) : String :=
  "<|im_start|>" ++ m.role ++ "\n" ++ m.content ++ "<|im_end|>\n"

/-- The assistant header appended by `apply_chat_template` when
`add_generation_prompt=True` (`main.py` line 146). -/
def assistantHeader : String := "<|im_start|>assistant\n"

/-- Model of `tokenizer.apply_chat_template(messages, tokenize=False,
add_generation_prompt=True)` (`main.py` lines 143-147): render each
message in order and append the assistant header. -/
def applyChatTemplate (msgs : List ChatMessage) : String :=
  (msgs.foldr (fun m acc => renderMessage m ++ acc) "") ++ assistantHeader

/-- Character-level model of the tokenizer encoding: one token per
character.  The claims under study depend only on the order and count of
tokens, not on the subword segmentation. -/
def charEncode (s : String) : List Nat :=
  s.data.map Char.toNat

/-- Model of the tokenizer call with `truncation=True,
max_length=MAX_SEQ_LEN` (`main.py` lines 150-155): encode, then keep at
most the first `MAX_SEQ_LEN` tokens.  The tokenizer object created in
`load_model` keeps the default truncation side, which is the right: when
the sequence is too long the NEWEST tokens are dropped. -/
def tokenizeTruncate (text : String) : List Nat :=
  (charEncode text).take MAX_SEQ_LEN

/-- The `input_ids` produced by `generate_response` for a given message
and history: template application followed by truncating tokenization. -/
def assembledPrompt (message : String) (history : List ChatMessage) : List Nat :=
  tokenizeTruncate (applyChatTemplate (buildMessages message history))

/-- The slice `outputs[0][inputs["input_ids"].shape[-1]:]` of
`generate_response` (`main.py` line 174): drop the prompt-length head of
the generated sequence. -/
def generatedIds (inputLen : Nat) (outputs : List Nat) : List Nat :=
  outputs.drop inputLen

/-- Character-level model of `tokenizer.decode` (`main.py` line 175). -/
def decodeTok (ts : List Nat) : String :=
  String.mk (ts.map Char.ofNat)

/-- Python `str.strip()` applied to the decoded response (`main.py`
line 177): remove whitespace from both ends. -/
def pyStrip (s : String) : String :=
  String.mk (((s.data.dropWhile Char.isWhitespace).reverse.dropWhile
    Char.isWhitespace).reverse)

/-- A Python exception as observed by the `except` clause of the `chat`
endpoint: only its `str(e)` rendering matters to the embedding. -/
inductive PyError where
  | attributeError (msg : String)
  | other (msg : String)
  deriving DecidableEq, Repr

/-- Python `str(e)` for a caught exception. -/
def errMessage : PyError → String
  | PyError.attributeError m => m
  | PyError.other m => m

/-- The process-wide model state: `None` while `load_model` has not
completed (the `model = None` / `tokenizer = None` globals of `main.py`
lines 58-60), `some` once loading finished.  The model and tokenizer
globals are assigned together by `load_model`. -/
abbrev ServerState := Option LoraModel

/-- The `str(e)` text of the `AttributeError` raised when
`generate_response` runs before loading: `tokenizer` is still `None` and
`apply_chat_template` is looked up on it (`main.py` line 143). -/
def noneTypeError : String :=
  "NoneType object has no attribute apply_chat_template"

/-- The body of `generate_response` (`main.py` lines 116-177).  Before the
model is loaded, the first tokenizer use raises an `AttributeError`.  Once
loaded, the function assembles the prompt, runs `model.generate` (modelled
as the prompt followed by an abstract sampled continuation `sampler`),
slices off the prompt span, decodes and strips.  Note there is no
validation of `message` or of the system prompt anywhere on this path. -/
def generateResponseFn (sampler : List Nat → List Nat) (st : ServerState)
    (message : String) (history : List ChatMessage) : Except PyError String :=
  match st with
  | none => Except.error (PyError.attributeError noneTypeError)
  | some _ =>
      let inputIds := assembledPrompt message history
      let outputs := inputIds ++ sampler inputIds
      let generated := generatedIds inputIds.length outputs
      Except.ok (pyStrip (decodeTok generated))

/-- The `try/except` wrapper of the `chat` endpoint (`main.py` lines
193-198): a successful generation becomes a `ChatResponse`; ANY exception
becomes `HTTPException(status_code=500, detail=str(e))`, modelled as the
pair of the status code and the detail text. -/
def chatHandle (result : Except PyError String) : Except (Nat × String) ChatResponse :=
  match result with
  | Except.ok r => Except.ok { response := r }
  | Except.error e => Except.error (500, errMessage e)

/-- The `chat` endpoint (`main.py` lines 190-198): run
`generate_response` on the request fields and wrap the outcome. -/
def chatEndpoint (sampler : List Nat → List Nat) (st : ServerState)
    (req : ChatRequest) : Except (Nat × String) ChatResponse :=
  chatHandle (generateResponseFn sampler st req.message req.history)

/-- The response of the `health` endpoint (`main.py` lines 200-207). -/
structure HealthResponse where
  status : String
  model_loaded : Bool
  device : String
  deriving DecidableEq, Repr

/-- The `health` endpoint (`main.py` lines 200-207): a plain dictionary
built unconditionally, in every service state. -/
def health (st : ServerState) : HealthResponse :=
  { status := "healthy", model_loaded := st.isSome, device := DEVICE }

/-- A 600-character message, used to exhibit token-level truncation. -/
def longMsg : String := String.mk (List.replicate 600 'a')

theorem charEncode_append (s t : String) :
    charEncode (s ++ t) = charEncode s ++ charEncode t := by
  simp [charEncode, String.data_append]

theorem filter_all_contains (m : LoraModel) :
    ((m.adapterNames.filter pyIsdigit).all fun i => m.adapterNames.contains i) = true := by
  rw [List.all_eq_true]
  intro i hi
  simpa using List.mem_of_mem_filter hi

theorem sys_tokens_pre (message : String) (history : List ChatMessage) :
    charEncode (renderMessage systemMessage) <+:
      charEncode (applyChatTemplate (buildMessages message history)) := by
  simp only [applyChatTemplate, buildMessages, List.foldr_cons, charEncode_append,
    List.append_assoc]
  exact List.prefix_append _ _

/-- C1: if at least one numeric-named adapter identifier is in the
registry, the router activates exactly the full numeric-named set; with no
numeric-named adapter the model (and so its active selection) is left
untouched.  Stated as a complete characterization of the activation step,
covering both branches without a hypothesis. -/
theorem xlora_activation_spec (m : LoraModel) :
    xloraActivation m =
      if (m.adapterNames.filter pyIsdigit).isEmpty then m
      else { m with activeAdapters := m.adapterNames.filter pyIsdigit } := by
  have hzeta : xloraActivation m =
      if (m.adapterNames.filter pyIsdigit).isEmpty then m
      else applySetAdapter m (m.adapterNames.filter pyIsdigit) := rfl
  rw [hzeta]
  by_cases hE : (m.adapterNames.filter pyIsdigit).isEmpty = true
  · rw [if_pos hE, if_pos hE]
  · rw [if_neg hE, if_neg hE]
    unfold applySetAdapter setAdapter
    rw [if_pos (filter_all_contains m)]

/-- C2 (counterexample): with an empty history and a 600-character message
the chat-formatted token sequence exceeds `MAX_SEQ_LEN`, yet the truncated
prompt does NOT contain the newest user message: truncation cuts the
newest end, not the oldest. -/
theorem truncation_drops_newest_cex :
    MAX_SEQ_LEN < (charEncode (applyChatTemplate (buildMessages longMsg []))).length ∧
    ¬ charEncode longMsg <:+: assembledPrompt longMsg [] := by
  have h2 : (charEncode longMsg).length = 600 := by
    rw [longMsg, charEncode]
    rw [show (String.mk (List.replicate 600 'a')).data = List.replicate 600 'a' from rfl]
    rw [List.length_map, List.length_replicate]
  constructor
  · have hdecomp : applyChatTemplate (buildMessages longMsg []) =
        (renderMessage systemMessage ++
          (renderMessage { role := "user", content := longMsg } ++ "")) ++
          assistantHeader := rfl
    have huser : charEncode (renderMessage { role := "user", content := longMsg }) =
        (charEncode "<|im_start|>" ++ (charEncode "user" ++ (charEncode "\n" ++
          (charEncode longMsg ++ charEncode "<|im_end|>\n")))) := by
      simp only [renderMessage, charEncode_append, List.append_assoc]
    have hlen : 600 ≤ (charEncode (applyChatTemplate (buildMessages longMsg []))).length := by
      rw [hdecomp, charEncode_append, charEncode_append, charEncode_append, huser]
      simp only [List.length_append]
      rw [h2]
      omega
    have : (512 : Nat) < 600 := by norm_num
    calc MAX_SEQ_LEN < 600 := this
      _ ≤ _ := hlen
  · intro h
    have h1 := List.IsInfix.length_le h
    have h3 : (assembledPrompt longMsg []).length ≤ MAX_SEQ_LEN := by
      simp only [assembledPrompt, tokenizeTruncate]
      rw [List.length_take]
      exact min_le_left _ _
    rw [h2] at h1
    have h4 : (600 : Nat) ≤ MAX_SEQ_LEN := le_trans h1 h3
    simp [MAX_SEQ_LEN] at h4

/-- C2 (amended): the truncated prompt keeps the OLDEST tokens: it is a
prefix of the full chat-formatted token sequence (only the newest end is
dropped), and the system directive tokens are always preserved at the
front of the result. -/
theorem truncation_keeps_oldest (message : String) (history : List ChatMessage) :
    assembledPrompt message history <+:
      charEncode (applyChatTemplate (buildMessages message history)) ∧
    charEncode (renderMessage systemMessage) <+: assembledPrompt message history := by
  constructor
  · simp only [assembledPrompt, tokenizeTruncate]
    exact List.take_prefix _ _
  · simp only [assembledPrompt, tokenizeTruncate]
    rw [List.prefix_take_iff]
    exact ⟨sys_tokens_pre message history, by decide⟩

/-- C3: the reply is decoded exclusively from the tokens after the prompt
span: slicing the generated sequence at the prompt length yields exactly
the newly sampled continuation, and the service-level response is a
function of that continuation only. -/
theorem decode_only_generated :
    (∀ (inputIds newTokens : List Nat),
        generatedIds inputIds.length (inputIds ++ newTokens) = newTokens) ∧
    ∀ (sampler : List Nat → List Nat) (m : LoraModel) (message : String)
      (history : List ChatMessage),
      generateResponseFn sampler (some m) message history =
        Except.ok (pyStrip (decodeTok (sampler (assembledPrompt message history)))) := by
  constructor
  · intro a b
    exact List.drop_left a b
  · intro sampler m message history
    simp [generateResponseFn, generatedIds, List.drop_left]

/-- C4 (counterexample): two requests that differ in message, history and
(purported) language yield the SAME system directive — the fixed constant
system message; no per-request language selection exists. -/
theorem system_directive_constant_cex :
    (buildMessages "Hello" []).head? = some systemMessage ∧
    (buildMessages "Halo apa kabar"
        [{ role := "user", content := "x" }, { role := "assistant", content := "y" }]).head? =
      some systemMessage :=
  ⟨rfl, rfl⟩

/-- C4 (amended): the request type carries only a message and a history
(no language selector), and the system directive placed at the head of
every assembled conversation is one fixed constant, identical for all
requests. -/
theorem system_directive_fixed (message : String) (history : List ChatMessage) :
    (buildMessages message history).head? = some systemMessage := rfl

/-- C5 (counterexample): a request arriving while the model is not loaded
is answered with the generic HTTP 500 wrapper carrying the raw
AttributeError text — the very same status code and shape that a generic
generation failure produces, so the loading condition is not distinct. -/
theorem loading_state_not_distinct_cex :
    chatEndpoint (fun _ => []) none { message := "hi", history := [] } =
      Except.error (500, noneTypeError) ∧
    chatHandle (Except.error (PyError.other "RuntimeError: generation failed")) =
      Except.error (500, "RuntimeError: generation failed") :=
  ⟨rfl, rfl⟩

/-- C5 (amended): a request during the Loading state is not pre-checked;
the first tokenizer use raises an AttributeError and the endpoint returns
the generic HTTP 500 failure with that exception text, for every request
and independently of the sampler (no decoding takes place). -/
theorem loading_state_generic_500 (sampler : List Nat → List Nat) (req : ChatRequest) :
    chatEndpoint sampler none req = Except.error (500, noneTypeError) := rfl

/-- C6: for every message and history, the assembled and truncated prompt
has at most `MAX_SEQ_LEN` tokens. -/
theorem prompt_within_budget (message : String) (history : List ChatMessage) :
    (assembledPrompt message history).length ≤ MAX_SEQ_LEN := by
  simp only [assembledPrompt, tokenizeTruncate]
  rw [List.length_take]
  exact min_le_left _ _

/-- C7 (counterexample): a generation call with an empty new message does
NOT fail: it assembles the prompt, proceeds to decode and returns a
result (here the empty reply, with a sampler producing no tokens). -/
theorem empty_message_proceeds_cex :
    generateResponseFn (fun _ => []) (some { adapterNames := [], activeAdapters := [] })
      "" [] = Except.ok "" := rfl

/-- C7 (amended): the prompt assembly path performs no validation at all:
once the model is loaded, `generate_response` succeeds for every message
(including the empty one) and every history; no AssemblyError condition
exists in the program. -/
theorem assembler_never_fails (sampler : List Nat → List Nat) (m : LoraModel)
    (message : String) (history : List ChatMessage) :
    ∃ r : String, generateResponseFn sampler (some m) message history = Except.ok r :=
  ⟨_, rfl⟩

/-- C8: activating a set of adapter identifiers of which at least one is
absent from the registry signals AdapterNotFoundError to the caller, and
the observable selection state after the failed call is unchanged. -/
theorem setAdapter_unknown (m : LoraModel) (ids : List String)
    (h : (ids.all fun i => m.adapterNames.contains i) = false) :
    setAdapter m ids = Except.error AdapterError.adapterNotFound ∧
      applySetAdapter m ids = m := by
  have hs : setAdapter m ids = Except.error AdapterError.adapterNotFound := by
    unfold setAdapter
    split
    · next hc => rw [h] at hc; cases hc
    · rfl
  refine ⟨hs, ?_⟩
  unfold applySetAdapter
  rw [hs]

/-- Witness for C8: a registry holding adapters 0 and 1, asked to activate
the pair of 0 and an unknown identifier. -/
theorem setAdapter_unknown_witness :
    ((["0", "ghost"].all fun i =>
        (LoraModel.mk ["0", "1"] ["0"]).adapterNames.contains i) = false) ∧
    (setAdapter (LoraModel.mk ["0", "1"] ["0"]) ["0", "ghost"] =
        Except.error AdapterError.adapterNotFound ∧
      applySetAdapter (LoraModel.mk ["0", "1"] ["0"]) ["0", "ghost"] =
        LoraModel.mk ["0", "1"] ["0"]) :=
  ⟨by decide, setAdapter_unknown _ _ (by decide)⟩

/-- C9 (counterexample): two runs failing with different internal
exceptions yield DIFFERENT caller-visible error details: the detail is the
raw exception text, so it is not a stable, non-leaking message. -/
theorem error_detail_leaks_cex :
    chatHandle (Except.error (PyError.other "CUDA out of memory")) =
        Except.error (500, "CUDA out of memory") ∧
    chatHandle (Except.error (PyError.other "tensor shape mismatch")) =
        Except.error (500, "tensor shape mismatch") ∧
    ("CUDA out of memory" : String) ≠ "tensor shape mismatch" :=
  ⟨rfl, rfl, by decide⟩

/-- C9 (amended): every generation failure is returned with the stable
status code 500, but the caller-visible detail equals the internal
exception text verbatim, so the internal cause is leaked to the caller
rather than hidden behind a uniform message. -/
theorem error_detail_leaks (e : PyError) :
    chatHandle (Except.error e) = Except.error (500, errMessage e) := rfl

/-- C10: in every service state the health endpoint reports status
healthy, the model-loaded flag equal to whether the model global is set,
and the device constant; the status field is identical across all states,
so it alone cannot distinguish a loaded service from an unloaded one. -/
theorem health_uniform (st : ServerState) :
    (health st).status = "healthy" ∧ (health st).model_loaded = st.isSome ∧
      (health st).device = DEVICE ∧
      ∀ st2 : ServerState, (health st).status = (health st2).status :=
  ⟨rfl, rfl, rfl, fun _ => rfl⟩

end Waguri
